import Mathlib

/-!
Verification of the parking occupancy state-tracking engine
(`psd1/parking_space.py`, `psd1/config_manager.py`, `psd1/logger.py`).

Shallow embedding conventions:
* Python `float` values that the core computes with (ratios, durations,
  occupancy rates, means) are modelled as `ℚ`; every arithmetic step the
  source performs on them is sign/comparison-exact at these magnitudes.
* `datetime` timestamps are modelled as integer seconds
  (`total_seconds` of a difference becomes integer subtraction);
  metrics-snapshot timestamps are nonnegative, so they are `Nat`.
* The OpenCV rasterization primitives are external to the repository:
  `cv2.contourArea` is Green's-formula polygon area (embedded exactly as
  `contourArea` below), while the pixel-mask intersection area computed by
  `cv2.fillPoly`/`cv2.bitwise_and` in `bbox_intersection_ratio`, and the
  `cv2.pointPolygonTest` containment answer used by `point_inside`, enter
  the embedding as inputs (`intersection_area`, `DetectionEval`).
-/

namespace ParkVision

/-- The `SpaceState` enum from `parking_space.py`. -/
inductive SpaceState where
  | EMPTY
  | OCCUPIED
  | UNKNOWN
deriving DecidableEq, Repr

/-- The `.value` string of the Python enum member. -/
def SpaceState.value : SpaceState → String
  | .EMPTY => "empty"
  | .OCCUPIED => "occupied"
  | .UNKNOWN => "unknown"

/-- Geometric evaluation of one detection against one region's polygon:
`ratio` is `bbox_intersection_ratio(bbox)` and `inside` is
`point_inside(centroid)`, both computed by OpenCV rasterization in the
source and consumed here as given values. -/
structure DetectionEval where
  ratio : ℚ
  inside : Bool
deriving DecidableEq, Repr

/-- Mutable fields of `ParkingSpace.__init__`. -/
structure ParkingSpace where
  space_id : Int
  polygon : List (Int × Int)
  min_occupancy_ratio : ℚ
  state : SpaceState
  previous_state : SpaceState
  state_history : List (Int × SpaceState)
  last_change_time : Option Int
  occupancy_duration : ℚ
  vehicle_count : Nat
  confidence_smoothing : List ℚ
  smoothing_window : Nat
deriving DecidableEq, Repr

/-- Embedding of `ParkingSpace.__init__(space_id, polygon, min_occupancy_ratio)`. -/
def ParkingSpace.init (space_id : Int) (polygon : List (Int × Int))
    (min_occupancy_ratio : ℚ) : ParkingSpace :=
  { space_id := space_id
    polygon := polygon
    min_occupancy_ratio := min_occupancy_ratio
    state := SpaceState.UNKNOWN
    previous_state := SpaceState.UNKNOWN
    state_history := []
    last_change_time := none
    occupancy_duration := 0
    vehicle_count := 0
    confidence_smoothing := []
    smoothing_window := 5 }

/-- Cyclic cross-product sum of the shoelace formula: given the first
polygon point `p0` and the remaining traversal, sums
`x_i * y_{i+1} - x_{i+1} * y_i` with wrap-around back to `p0`. -/
def shoelace (p0 : Int × Int) : List (Int × Int) → Int
  | [] => 0
  | [q] => q.1 * p0.2 - p0.1 * q.2
  | q :: r :: rest => (q.1 * r.2 - r.1 * q.2) + shoelace p0 (r :: rest)

/-- Embedding of `cv2.contourArea(points)`: absolute Green's-formula area of the
closed polygon, `|Σ cross| / 2`. -/
def contourArea (pts : List (Int × Int)) : ℚ :=
  match pts with
  | [] => 0
  | p :: rest => ((shoelace p (p :: rest)).natAbs : ℚ) / 2

/-- Embedding of `ParkingSpace.get_area`. -/
def ParkingSpace.get_area (s : ParkingSpace) : ℚ :=
  contourArea s.polygon

/-- Embedding of `ParkingSpace.bbox_intersection_ratio`: `intersection_area` is the
pixel count of the rasterized mask overlap for the given bounding box
(external OpenCV computation, taken as input); the source returns `0.0`
before building any mask when the space area is zero. -/
def ParkingSpace.bbox_intersection_ratio (s : ParkingSpace)
    (intersection_area : ℚ) : ℚ :=
  if s.get_area = 0 then 0 else intersection_area / s.get_area

/-- Embedding of `np.mean` on a list of rationals. -/
def listMean (l : List ℚ) : ℚ :=
  l.sum / (l.length : ℚ)

/-- The `max_intersection` accumulator of the `check_occupancy` loop:
starts at `0.0` and takes the max of `intersection_ratio` over detections
with positive overlap or centroid inside. -/
def max_intersection (dets : List DetectionEval) : ℚ :=
  dets.foldl (fun acc d => if 0 < d.ratio ∨ d.inside = true then max acc d.ratio else acc) 0

/-- The `vehicle_count` accumulator of the `check_occupancy` loop. -/
def vehicleCountOf (m : ℚ) (dets : List DetectionEval) : Nat :=
  dets.foldl
    (fun acc d => if (0 < d.ratio ∨ d.inside = true) ∧ m < d.ratio then acc + 1 else acc) 0

/-- The raw (pre-smoothing) `is_occupied` boolean of `check_occupancy`:
`max_intersection > 0.0 if self.min_occupancy_ratio == 0.0 else
max_intersection >= self.min_occupancy_ratio`. -/
def raw_occupancy (m : ℚ) (dets : List DetectionEval) : Bool :=
  if m = 0 then decide (0 < max_intersection dets)
  else decide (m ≤ max_intersection dets)

/-- The `1.0 if is_occupied else 0.0` sample pushed on the window. -/
def rawVal (b : Bool) : ℚ :=
  if b then 1 else 0

/-- Embedding of `ParkingSpace.check_occupancy`, with each detection's geometric
evaluation supplied as a `DetectionEval`. Returns the debounced decision
and the space with `vehicle_count` and `confidence_smoothing` updated. -/
def check_occupancy (s : ParkingSpace) (dets : List DetectionEval) :
    Bool × ParkingSpace :=
  let raw := raw_occupancy s.min_occupancy_ratio dets
  let pushed := s.confidence_smoothing ++ [rawVal raw]
  let window := if s.smoothing_window < pushed.length then pushed.tail else pushed
  let dec := if 3 ≤ window.length then decide ((1 : ℚ) / 2 ≤ listMean window) else raw
  (dec, { s with vehicle_count := vehicleCountOf s.min_occupancy_ratio dets
                 confidence_smoothing := window })

/-- The assignment `new_state = SpaceState.OCCUPIED if is_occupied else SpaceState.EMPTY`. -/
def newStateOf (is_occupied : Bool) : SpaceState :=
  if is_occupied then SpaceState.OCCUPIED else SpaceState.EMPTY

/-- Embedding of `ParkingSpace.update_state(is_occupied, timestamp)`; `self.state_history[-2]`
is `hist.getD (hist.length - 2)`. -/
def update_state (s : ParkingSpace) (is_occupied : Bool) (t : Int) : ParkingSpace :=
  let new_state := newStateOf is_occupied
  let prev := s.state
  if prev ≠ new_state ∧ prev ≠ SpaceState.UNKNOWN then
    let hist := s.state_history ++ [(t, new_state)]
    let dur :=
      if new_state = SpaceState.EMPTY ∧ prev = SpaceState.OCCUPIED ∧ 2 ≤ hist.length then
        (((t - (hist.getD (hist.length - 2) (0, SpaceState.UNKNOWN)).1 : Int)) : ℚ)
      else s.occupancy_duration
    { s with previous_state := prev
             state := new_state
             last_change_time := some t
             state_history := hist
             occupancy_duration := dur }
  else
    { s with previous_state := prev, state := new_state }

/-- One element of the `state_changes` list that
`ParkingSpaceManager.update_all` returns (old/new states carried as the
enum's `.value` strings, as in the source dict). -/
structure Event where
  space_id : Int
  old_state : String
  new_state : String
  timestamp : Int
deriving DecidableEq, Repr

/-- The per-space body of the `update_all` loop: `check_occupancy`
followed by `update_state`. `evals` supplies, per polygon, the geometric
evaluation of the frame's detections against that polygon. -/
def stepSpace (evals : List (Int × Int) → List DetectionEval) (t : Int)
    (s : ParkingSpace) : ParkingSpace :=
  update_state (check_occupancy s (evals s.polygon)).2
    (check_occupancy s (evals s.polygon)).1 t

/-- One iteration of the `update_all` loop over the accumulated
`state_changes` and updated spaces. -/
def updateAllStep (evals : List (Int × Int) → List DetectionEval) (t : Int)
    (acc : List Event × List ParkingSpace) (s : ParkingSpace) :
    List Event × List ParkingSpace :=
  (acc.1 ++
    (if s.state ≠ (stepSpace evals t s).state ∧ s.state ≠ SpaceState.UNKNOWN then
      [{ space_id := s.space_id
         old_state := s.state.value
         new_state := (stepSpace evals t s).state.value
         timestamp := t }]
     else []),
   acc.2 ++ [stepSpace evals t s])

/-- Embedding of `ParkingSpaceManager.update_all`: iterates the spaces in order,
updating each and appending an event when
`old_state != space.state and old_state != SpaceState.UNKNOWN`.
Returns the events and the updated spaces. (The `vehicle_classes`
argument of the source is unused by the loop and omitted.) -/
def update_all (spaces : List ParkingSpace)
    (evals : List (Int × Int) → List DetectionEval) (t : Int) :
    List Event × List ParkingSpace :=
  spaces.foldl (updateAllStep evals t) ([], [])

/-- The event contributed by one space in `update_all`, when the update
changed its state away from a non-Unknown prior state. -/
def eventOf (evals : List (Int × Int) → List DetectionEval) (t : Int)
    (s : ParkingSpace) : Option Event :=
  if s.state ≠ (stepSpace evals t s).state ∧ s.state ≠ SpaceState.UNKNOWN then
    some { space_id := s.space_id
           old_state := s.state.value
           new_state := (stepSpace evals t s).state.value
           timestamp := t }
  else none

/-- Embedding of `ParkingSpaceManager.get_counts`. -/
def get_counts (spaces : List ParkingSpace) : Nat × Nat :=
  (spaces.countP (fun s => decide (s.state = SpaceState.EMPTY)),
   spaces.countP (fun s => decide (s.state = SpaceState.OCCUPIED)))

/-- Embedding of `ParkingSpaceManager.total_spaces`, fixed at construction as the
length of the space list. -/
def total_spaces (spaces : List ParkingSpace) : Nat :=
  spaces.length

/-- Embedding of `ParkingSpaceManager.get_occupancy_rate`. -/
def get_occupancy_rate (spaces : List ParkingSpace) : ℚ :=
  if total_spaces spaces = 0 then 0
  else ((get_counts spaces).2 : ℚ) / (total_spaces spaces : ℚ)

/-- One entry of the `"spaces"` array of a parsed configuration document
(`"id"`, `"polygon"`, optional `"min_occupancy_ratio"`). -/
structure SpaceConfig where
  id : Int
  polygon : List (Int × Int)
  min_occupancy_ratio : Option ℚ
deriving DecidableEq, Repr

/-- A parsed region-set configuration document. -/
structure RegionSetConfig where
  spaces : List SpaceConfig
  default_min_occupancy_ratio : Option ℚ
deriving DecidableEq, Repr

/-- Embedding of `ConfigManager.load_spaces` after JSON decoding (file-existence and
JSON-syntax errors happen before this body and are outside the model):
for each entry, builds a `ParkingSpace` from its id, polygon, and
per-entry ratio falling back to the document default (`0.2`). The body
performs no validation of polygon point counts. -/
def load_spaces (config : RegionSetConfig) : List ParkingSpace :=
  let default_ratio := config.default_min_occupancy_ratio.getD (1 / 5)
  config.spaces.map
    (fun sc => ParkingSpace.init sc.id sc.polygon (sc.min_occupancy_ratio.getD default_ratio))

/-- One `change_record` dict of `ParkingLogger.state_changes`, restricted
to the fields `compute_turnover_rate` reads. -/
structure ChangeRecord where
  timestamp : Int
  space_id : Int
deriving DecidableEq, Repr

/-- The filter predicate `space_id is None or c['space_id'] == space_id`. -/
def sidMatches (sid : Option Int) (c : ChangeRecord) : Bool :=
  match sid with
  | none => true
  | some i => decide (c.space_id = i)

/-- Python's `max(...)` over the (nonempty) filtered timestamps. -/
def latestOf (cs : List ChangeRecord) : Int :=
  match cs.map ChangeRecord.timestamp with
  | [] => 0
  | t :: ts => ts.foldl max t

/-- Embedding of `ParkingLogger.compute_turnover_rate(space_id, time_window_minutes)`;
`pd.Timedelta(minutes=w)` is `w * 60` seconds. -/
def compute_turnover_rate (changes : List ChangeRecord) (sid : Option Int)
    (w : Int) : ℚ :=
  if changes.isEmpty then 0
  else
    let cs := changes.filter (sidMatches sid)
    if cs.isEmpty then 0
    else
      let cutoff := latestOf cs - w * 60
      let recent := cs.filter (fun c => decide (cutoff ≤ c.timestamp))
      let hours : ℚ := (w : ℚ) / 60
      if 0 < hours then (recent.length : ℚ) / hours else 0

/-- One snapshot of `ParkingLogger.metrics_history`. -/
structure Metric where
  timestamp : Nat
  empty : Nat
  occupied : Nat
  total : Nat
  occupancy_rate : ℚ
deriving DecidableEq, Repr

instance : Inhabited Metric :=
  ⟨{ timestamp := 0, empty := 0, occupied := 0, total := 0, occupancy_rate := 0 }⟩

/-- Embedding of `ParkingLogger.log_metrics(timestamp, empty_count, occupied_count)`:
appends the snapshot dict to `metrics_history`. -/
def log_metrics (hist : List Metric) (t : Nat) (e o : Nat) : List Metric :=
  hist ++
    [{ timestamp := t
       empty := e
       occupied := o
       total := e + o
       occupancy_rate := if 0 < e + o then (o : ℚ) / ((e + o : Nat) : ℚ) else 0 }]

/-- The key `metric['timestamp'].replace(minute=0, second=0, microsecond=0)`:
truncation of a (nonnegative) timestamp to the top of its hour. -/
def hour_key (t : Nat) : Nat :=
  t / 3600 * 3600

/-- Key insertion into the `hourly_data` dict: Python dicts keep
first-insertion order. -/
def insertKey (ks : List Nat) (k : Nat) : List Nat :=
  if k ∈ ks then ks else ks ++ [k]

/-- The hour keys of `hourly_data`, in first-occurrence order. -/
def hour_keys (ms : List Metric) : List Nat :=
  ms.foldl (fun ks m => insertKey ks (hour_key m.timestamp)) []

/-- The `occupancy_rate` list collected for one hour key (metrics order). -/
def rates_of (ms : List Metric) (k : Nat) : List ℚ :=
  (ms.filter (fun m => decide (hour_key m.timestamp = k))).map Metric.occupancy_rate

/-- The `hourly_avg` dict of `get_peak_hours` as an ordered association
list: one `(hour, mean rate)` pair per hour key. -/
def hourly_avg (ms : List Metric) : List (Nat × ℚ) :=
  (hour_keys ms).map (fun k => (k, listMean (rates_of ms k)))

/-- Order used by `sorted(..., key=lambda x: x[1], reverse=True)`:
descending by average rate. -/
def rateGE (a b : Nat × ℚ) : Prop :=
  b.2 ≤ a.2

instance : DecidableRel rateGE :=
  fun a b => inferInstanceAs (Decidable (b.2 ≤ a.2))

instance : IsTotal (Nat × ℚ) rateGE :=
  ⟨fun a b => le_total b.2 a.2⟩

instance : IsTrans (Nat × ℚ) rateGE :=
  ⟨fun _ _ _ h1 h2 => le_trans h2 h1⟩

/-- Embedding of `ParkingLogger.get_peak_hours`: hourly grouping, per-hour mean,
stable descending sort by rate, top 10. (`List.insertionSort` with
`rateGE` is stable for ties, like Python's `sorted` with `reverse=True`.) -/
def get_peak_hours (ms : List Metric) : List (Nat × ℚ) :=
  if ms.isEmpty then []
  else (List.insertionSort rateGE (hourly_avg ms)).take 10

/-- Spec-worded definition for the claim about the raw occupancy boolean:
"`max_ratio` = maximum `intersection_ratio` over all detections that have
positive overlap or whose centroid is inside the region", `0.0` when no
such detection exists. -/
def specMaxRatio (dets : List DetectionEval) : ℚ :=
  match (dets.filter (fun d => decide (0 < d.ratio ∨ d.inside = true))).map DetectionEval.ratio with
  | [] => 0
  | x :: xs => xs.foldl max x

/-- A non-degenerate square region polygon used as concrete test input. -/
def demoPoly : List (Int × Int) :=
  [(0, 0), (4, 0), (4, 4), (0, 4)]

/-- A space driven to `EMPTY` by one update from its initial state. -/
def demoEmptySpace : ParkingSpace :=
  update_state (ParkingSpace.init 1 demoPoly (1 / 5)) false 0

/-- A space driven to `OCCUPIED` by one update from its initial state. -/
def demoOccupiedSpace : ParkingSpace :=
  update_state (ParkingSpace.init 2 demoPoly (1 / 5)) true 0

/-- A freshly constructed space, still in the `UNKNOWN` state. -/
def demoUnknownSpace : ParkingSpace :=
  ParkingSpace.init 3 demoPoly (1 / 5)

/-- A space with a full 5-sample smoothing window. -/
def demoWindowSpace : ParkingSpace :=
  { ParkingSpace.init 4 demoPoly (1 / 5) with
      confidence_smoothing := [1, 0, 1, 0, 1] }

/-- A space over a collinear (zero-area) polygon. -/
def degenerateSpace : ParkingSpace :=
  ParkingSpace.init 9 [(0, 0), (2, 2), (4, 4)] (1 / 5)

/-- A region entry with a 2-point polygon. -/
def twoPointEntry : SpaceConfig :=
  { id := 1, polygon := [(0, 0), (1, 1)], min_occupancy_ratio := none }

/-- A configuration document whose single region has a 2-point polygon. -/
def twoPointConfig : RegionSetConfig :=
  { spaces := [twoPointEntry]
    default_min_occupancy_ratio := none }

/-- Four transition events at minute offsets 5, 20, 40, 59. -/
def scenarioChanges : List ChangeRecord :=
  [{ timestamp := 300, space_id := 1 }, { timestamp := 1200, space_id := 1 },
   { timestamp := 2400, space_id := 1 }, { timestamp := 3540, space_id := 1 }]

/-- Two metrics snapshots falling in two different hours. -/
def demoMetrics : List Metric :=
  [{ timestamp := 100, empty := 1, occupied := 9, total := 10, occupancy_rate := 9 / 10 },
   { timestamp := 4000, empty := 9, occupied := 1, total := 10, occupancy_rate := 1 / 10 }]

lemma append_singleton_ne {α : Type} (l : List α) (x : α) : l ++ [x] ≠ l := by
  intro h
  have hlen := congrArg List.length h
  simp at hlen

lemma getD_length_pred {α : Type} :
    ∀ (l : List α), l ≠ [] → ∀ d : α, l.getD (l.length - 1) d = l.getLastD d
  | [], h, _ => absurd rfl h
  | [_], _, _ => rfl
  | a :: b :: tl, _, d => by
    have h1 : (a :: b :: tl).length - 1 = ((b :: tl).length - 1) + 1 := by
      simp
    rw [h1, List.getD_cons_succ, getD_length_pred (b :: tl) (by simp) d]
    simp [List.getLastD_eq_getLast?, List.getLast?_cons_cons]

lemma update_state_state (s : ParkingSpace) (occ : Bool) (t : Int) :
    (update_state s occ t).state = newStateOf occ := by
  simp only [update_state]
  split_ifs <;> rfl

lemma update_state_history (s : ParkingSpace) (occ : Bool) (t : Int) :
    (update_state s occ t).state_history =
      if s.state ≠ newStateOf occ ∧ s.state ≠ SpaceState.UNKNOWN then
        s.state_history ++ [(t, newStateOf occ)]
      else s.state_history := by
  simp only [update_state]
  split_ifs <;> rfl

lemma update_state_last_change (s : ParkingSpace) (occ : Bool) (t : Int) :
    (update_state s occ t).last_change_time =
      if s.state ≠ newStateOf occ ∧ s.state ≠ SpaceState.UNKNOWN then some t
      else s.last_change_time := by
  simp only [update_state]
  split_ifs <;> rfl

lemma update_state_duration (s : ParkingSpace) (occ : Bool) (t : Int) :
    (update_state s occ t).occupancy_duration =
      if (s.state ≠ newStateOf occ ∧ s.state ≠ SpaceState.UNKNOWN) ∧
          newStateOf occ = SpaceState.EMPTY ∧ s.state = SpaceState.OCCUPIED ∧
          s.state_history ≠ [] then
        ((t - (s.state_history.getLastD (0, SpaceState.UNKNOWN)).1 : Int) : ℚ)
      else s.occupancy_duration := by
  simp only [update_state]
  by_cases h : s.state ≠ newStateOf occ ∧ s.state ≠ SpaceState.UNKNOWN
  · rw [if_pos h]
    by_cases h2 : newStateOf occ = SpaceState.EMPTY ∧ s.state = SpaceState.OCCUPIED ∧
        s.state_history ≠ []
    · have hne : s.state_history ≠ [] := h2.2.2
      have hlen2 : 2 ≤ (s.state_history ++ [(t, newStateOf occ)]).length := by
        have : 0 < s.state_history.length := List.length_pos.mpr hne
        simp only [List.length_append, List.length_singleton]
        omega
      rw [if_pos ⟨h2.1, h2.2.1, hlen2⟩, if_pos ⟨h, h2⟩]
      have hidx : (s.state_history ++ [(t, newStateOf occ)]).length - 2 =
          s.state_history.length - 1 := by
        simp only [List.length_append, List.length_singleton]
        omega
      have hlt : s.state_history.length - 1 < s.state_history.length := by
        have : 0 < s.state_history.length := List.length_pos.mpr hne
        omega
      rw [hidx, List.getD_append _ _ _ _ hlt, getD_length_pred _ hne]
    · have h2' : ¬(newStateOf occ = SpaceState.EMPTY ∧ s.state = SpaceState.OCCUPIED ∧
          2 ≤ (s.state_history ++ [(t, newStateOf occ)]).length) := by
        intro hc
        apply h2
        refine ⟨hc.1, hc.2.1, ?_⟩
        intro hnil
        rw [hnil] at hc
        simp at hc
      rw [if_neg h2', if_neg (fun hc => h2 hc.2)]
  · rw [if_neg h, if_neg (fun hc => h hc.1)]

/-- C2: an `update_state` call appends to `state_history` exactly when the
new state differs from the pre-call state and that prior state was not
Unknown; no entry is ever appended on the first classification from
Unknown, and when nothing is appended, `state_history` and
`last_change_time` are unchanged. -/
theorem update_state_transition_log (s : ParkingSpace) (occ : Bool) (t : Int) :
    ((update_state s occ t).state_history =
      if s.state ≠ newStateOf occ ∧ s.state ≠ SpaceState.UNKNOWN then
        s.state_history ++ [(t, newStateOf occ)]
      else s.state_history)
    ∧ ((update_state s occ t).state_history ≠ s.state_history ↔
        (s.state ≠ newStateOf occ ∧ s.state ≠ SpaceState.UNKNOWN))
    ∧ (s.state = SpaceState.UNKNOWN → (update_state s occ t).state_history = s.state_history)
    ∧ (¬(s.state ≠ newStateOf occ ∧ s.state ≠ SpaceState.UNKNOWN) →
        (update_state s occ t).state_history = s.state_history ∧
        (update_state s occ t).last_change_time = s.last_change_time) := by
  have hh := update_state_history s occ t
  have hl := update_state_last_change s occ t
  by_cases h : s.state ≠ newStateOf occ ∧ s.state ≠ SpaceState.UNKNOWN
  · rw [if_pos h] at hh
    refine ⟨by rw [hh, if_pos h], ?_, ?_, ?_⟩
    · rw [hh]
      exact ⟨fun _ => h, fun _ => append_singleton_ne _ _⟩
    · intro hu
      exact absurd hu h.2
    · intro hc
      exact absurd h hc
  · rw [if_neg h] at hh
    rw [if_neg h] at hl
    refine ⟨by rw [hh, if_neg h], ?_, fun _ => hh, fun _ => ⟨hh, hl⟩⟩
    rw [hh]
    exact ⟨fun hc => absurd rfl hc, fun hc => absurd hc h⟩

/-- C2 witness: a concrete `EMPTY → OCCUPIED` update appends one entry,
and a concrete first classification from `UNKNOWN` appends none. -/
theorem update_state_transition_log_witness :
    (update_state demoEmptySpace true 5).state_history =
      demoEmptySpace.state_history ++ [(5, SpaceState.OCCUPIED)]
    ∧ (update_state demoUnknownSpace true 5).state_history =
        demoUnknownSpace.state_history := by
  constructor
  · have h := (update_state_transition_log demoEmptySpace true 5).1
    rw [h, if_pos (by with_unfolding_all decide)]
    rfl
  · exact (update_state_transition_log demoUnknownSpace true 5).2.2.1
      (by with_unfolding_all decide)

/-- C5: `update_state` sets `occupancy_duration` to the timestamp minus
the timestamp of the immediately preceding logged transition exactly when
the call logs an Occupied→Empty transition and the log already held an
entry (so the appended log has at least 2 entries); in every other case
the duration is unchanged. -/
theorem update_state_dwell_duration (s : ParkingSpace) (occ : Bool) (t : Int) :
    (update_state s occ t).occupancy_duration =
      if (s.state ≠ newStateOf occ ∧ s.state ≠ SpaceState.UNKNOWN) ∧
          newStateOf occ = SpaceState.EMPTY ∧ s.state = SpaceState.OCCUPIED ∧
          s.state_history ≠ [] then
        ((t - (s.state_history.getLastD (0, SpaceState.UNKNOWN)).1 : Int) : ℚ)
      else s.occupancy_duration :=
  update_state_duration s occ t

/-- C5 witness: a concrete Occupied→Empty transition with one prior
logged transition sets the duration to the timestamp difference, and a
concrete Empty→Occupied transition leaves it unchanged. -/
theorem update_state_dwell_duration_witness :
    (update_state (update_state (update_state demoOccupiedSpace false 7) true 9) false 15).occupancy_duration = 6
    ∧ (update_state demoEmptySpace true 5).occupancy_duration =
        demoEmptySpace.occupancy_duration := by
  constructor
  · have h := update_state_dwell_duration
      (update_state (update_state demoOccupiedSpace false 7) true 9) false 15
    rw [h, if_pos (by with_unfolding_all decide)]
    with_unfolding_all decide
  · have h := update_state_dwell_duration demoEmptySpace true 5
    rw [h, if_neg (by with_unfolding_all decide)]

/-- C3: the smoothing window keeps at most 5 samples, evicting the oldest
(head) on overflow; the decision returned for a frame is the raw boolean
while the window holds fewer than 3 samples and `mean(window) >= 0.5`
once it holds 3 or more, overriding the raw value. -/
theorem check_occupancy_smoothing (s : ParkingSpace) (dets : List DetectionEval)
    (hw : s.smoothing_window = 5) (hlen : s.confidence_smoothing.length ≤ 5) :
    ((check_occupancy s dets).2.confidence_smoothing =
      if 5 < (s.confidence_smoothing ++ [rawVal (raw_occupancy s.min_occupancy_ratio dets)]).length
      then (s.confidence_smoothing ++ [rawVal (raw_occupancy s.min_occupancy_ratio dets)]).tail
      else s.confidence_smoothing ++ [rawVal (raw_occupancy s.min_occupancy_ratio dets)])
    ∧ (check_occupancy s dets).2.confidence_smoothing.length ≤ 5
    ∧ ((check_occupancy s dets).1 =
        if 3 ≤ (check_occupancy s dets).2.confidence_smoothing.length
        then decide ((1 : ℚ) / 2 ≤ listMean (check_occupancy s dets).2.confidence_smoothing)
        else raw_occupancy s.min_occupancy_ratio dets) := by
  refine ⟨?_, ?_, ?_⟩
  · simp only [check_occupancy, hw]
  · simp only [check_occupancy, hw]
    by_cases h5 : 5 <
        (s.confidence_smoothing ++ [rawVal (raw_occupancy s.min_occupancy_ratio dets)]).length
    · rw [if_pos h5]
      simp only [List.length_tail, List.length_append, List.length_singleton]
      omega
    · rw [if_neg h5]
      simp only [List.length_append, List.length_singleton] at h5 ⊢
      omega
  · simp only [check_occupancy]

/-- C3 witness: with a full 5-sample window `[1,0,1,0,1]` and an
overlapping detection, the oldest sample is evicted and the majority vote
(3/5) yields an occupied decision. -/
theorem check_occupancy_smoothing_witness :
    (check_occupancy demoWindowSpace [{ ratio := 1, inside := true }]).2.confidence_smoothing =
      [0, 1, 0, 1, 1]
    ∧ (check_occupancy demoWindowSpace [{ ratio := 1, inside := true }]).2.confidence_smoothing.length ≤ 5
    ∧ (check_occupancy demoWindowSpace [{ ratio := 1, inside := true }]).1 = true := by
  have h := check_occupancy_smoothing demoWindowSpace [{ ratio := 1, inside := true }]
    (by with_unfolding_all decide) (by with_unfolding_all decide)
  exact ⟨by with_unfolding_all decide, h.2.1, by with_unfolding_all decide⟩

lemma max_intersection_foldl (dets : List DetectionEval) :
    ∀ acc : ℚ,
      dets.foldl (fun acc d => if 0 < d.ratio ∨ d.inside = true then max acc d.ratio else acc) acc
        = ((dets.filter (fun d => decide (0 < d.ratio ∨ d.inside = true))).map
            DetectionEval.ratio).foldl max acc := by
  induction dets with
  | nil => intro acc; rfl
  | cons d tl ih =>
    intro acc
    by_cases hq : 0 < d.ratio ∨ d.inside = true
    · simp only [List.foldl_cons, List.filter_cons, decide_eq_true_eq, if_pos hq,
        List.map_cons]
      exact ih _
    · simp only [List.foldl_cons, List.filter_cons, decide_eq_true_eq, if_neg hq]
      exact ih _

lemma max_intersection_spec (dets : List DetectionEval)
    (h : ∀ d ∈ dets, 0 ≤ d.ratio) :
    max_intersection dets = specMaxRatio dets := by
  unfold max_intersection specMaxRatio
  rw [max_intersection_foldl]
  cases hfm : (dets.filter (fun d => decide (0 < d.ratio ∨ d.inside = true))).map
      DetectionEval.ratio with
  | nil => simp
  | cons x xs =>
    have hx : 0 ≤ x := by
      have hme : x ∈ (dets.filter (fun d => decide (0 < d.ratio ∨ d.inside = true))).map
          DetectionEval.ratio := by
        rw [hfm]
        exact List.mem_cons_self x xs
      rcases List.mem_map.mp hme with ⟨d, hd, hdx⟩
      rw [← hdx]
      exact h d (List.mem_of_mem_filter hd)
    rw [List.foldl_cons, max_eq_right hx]

/-- C4: the raw occupancy boolean equals `max_ratio > 0` when
`min_occupancy_ratio == 0` and `max_ratio >= min_occupancy_ratio`
otherwise, where `max_ratio` is the maximum `intersection_ratio` over
detections with positive overlap or centroid inside (0.0 if none). -/
theorem raw_occupancy_spec (m : ℚ) (dets : List DetectionEval)
    (h : ∀ d ∈ dets, 0 ≤ d.ratio) :
    raw_occupancy m dets =
      if m = 0 then decide (0 < specMaxRatio dets)
      else decide (m ≤ specMaxRatio dets) := by
  unfold raw_occupancy
  rw [max_intersection_spec dets h]

/-- C4 witness: with threshold `1/5` and detections of ratio `3/10`
(positive overlap) and `0` (centroid inside), the maximum qualifying
ratio is `3/10` and the raw boolean is true. -/
theorem raw_occupancy_spec_witness :
    raw_occupancy (1 / 5) [{ ratio := 3 / 10, inside := false }, { ratio := 0, inside := true }] =
      (if (1 / 5 : ℚ) = 0 then
        decide ((0 : ℚ) < specMaxRatio
          [{ ratio := 3 / 10, inside := false }, { ratio := 0, inside := true }])
      else
        decide ((1 / 5 : ℚ) ≤ specMaxRatio
          [{ ratio := 3 / 10, inside := false }, { ratio := 0, inside := true }]))
    ∧ raw_occupancy (1 / 5)
        [{ ratio := 3 / 10, inside := false }, { ratio := 0, inside := true }] = true := by
  have h := raw_occupancy_spec (1 / 5)
    [{ ratio := 3 / 10, inside := false }, { ratio := 0, inside := true }]
    (by with_unfolding_all decide)
  exact ⟨h, by with_unfolding_all decide⟩

/-- C8: for a region whose polygon area evaluates to zero, the guard
returns the ratio 0.0 for every intersection-area input, so the division
by the region area is never reached. -/
theorem bbox_intersection_ratio_degenerate (s : ParkingSpace) (a : ℚ)
    (h : s.get_area = 0) :
    s.bbox_intersection_ratio a = 0 := by
  unfold ParkingSpace.bbox_intersection_ratio
  rw [if_pos h]

/-- C8 witness: a collinear 3-point polygon has zero area and ratio 0.0
for a sample box intersection area. -/
theorem bbox_intersection_ratio_degenerate_witness :
    degenerateSpace.get_area = 0 ∧ degenerateSpace.bbox_intersection_ratio 7 = 0 :=
  ⟨by with_unfolding_all decide,
   bbox_intersection_ratio_degenerate degenerateSpace 7 (by with_unfolding_all decide)⟩

/-- C1 counterexample: loading a configuration whose single region has a
2-point polygon does not fail; it constructs (and returns) a
`ParkingSpace` holding that 2-point polygon. -/
theorem load_spaces_two_point_loads :
    load_spaces twoPointConfig = [ParkingSpace.init 1 [(0, 0), (1, 1)] (1 / 5)] := by
  with_unfolding_all decide

/-- C1 amended: `load_spaces` performs no polygon-length validation: it
returns one `ParkingSpace` per region entry, and a region whose polygon
has fewer than 3 points is still loaded, with its id and polygon passed
through unchanged. -/
theorem load_spaces_no_polygon_validation (config : RegionSetConfig) (sc : SpaceConfig)
    (hm : sc ∈ config.spaces) (hlen : sc.polygon.length < 3) :
    (load_spaces config).length = config.spaces.length
    ∧ ∃ s ∈ load_spaces config, s.space_id = sc.id ∧ s.polygon = sc.polygon := by
  constructor
  · unfold load_spaces
    exact List.length_map _ _
  · exact ⟨ParkingSpace.init sc.id sc.polygon
      (sc.min_occupancy_ratio.getD (config.default_min_occupancy_ratio.getD (1 / 5))),
      List.mem_map_of_mem _ hm, rfl, rfl⟩

/-- C1 amended witness: the 2-point-polygon configuration loads into
exactly one space carrying id 1 and the 2-point polygon. -/
theorem load_spaces_no_polygon_validation_witness :
    (load_spaces twoPointConfig).length = twoPointConfig.spaces.length
    ∧ ∃ s ∈ load_spaces twoPointConfig,
        s.space_id = twoPointEntry.id ∧ s.polygon = twoPointEntry.polygon :=
  load_spaces_no_polygon_validation twoPointConfig twoPointEntry
    (by with_unfolding_all decide) (by with_unfolding_all decide)

/-- C10: each logged snapshot has `total = empty_count + occupied_count`
and `occupancy_rate = occupied / total` (0.0 when the sum is zero); and
since `get_counts` counts only Empty and Occupied regions, a region set
with an Unknown region yields a snapshot whose total is smaller than the
fixed `total_spaces` and whose rate differs from the coordinator's
`occupied / total_spaces` rate. -/
theorem log_metrics_snapshot (hist : List Metric) (t e o : Nat) :
    ((log_metrics hist t e o).getLast? =
      some { timestamp := t, empty := e, occupied := o, total := e + o,
             occupancy_rate := if 0 < e + o then (o : ℚ) / ((e + o : Nat) : ℚ) else 0 })
    ∧ get_counts [demoUnknownSpace, demoOccupiedSpace] = (0, 1)
    ∧ ((log_metrics [] 0 (get_counts [demoUnknownSpace, demoOccupiedSpace]).1
          (get_counts [demoUnknownSpace, demoOccupiedSpace]).2).getLastD default).total
        < total_spaces [demoUnknownSpace, demoOccupiedSpace]
    ∧ ((log_metrics [] 0 (get_counts [demoUnknownSpace, demoOccupiedSpace]).1
          (get_counts [demoUnknownSpace, demoOccupiedSpace]).2).getLastD default).occupancy_rate
        ≠ get_occupancy_rate [demoUnknownSpace, demoOccupiedSpace] := by
  refine ⟨?_, by with_unfolding_all decide, by with_unfolding_all decide,
    by with_unfolding_all decide⟩
  unfold log_metrics
  exact List.getLast?_concat _

/-- C10 witness: a concrete `log_metrics` call with counts 2 and 2
appends a snapshot with total 4 and rate 2/4. -/
theorem log_metrics_snapshot_witness :
    (log_metrics [] 3 2 2).getLast? =
      some { timestamp := 3, empty := 2, occupied := 2, total := 2 + 2,
             occupancy_rate :=
               if 0 < 2 + 2 then ((2 : Nat) : ℚ) / (((2 + 2 : Nat)) : ℚ) else 0 } :=
  (log_metrics_snapshot [] 3 2 2).1

lemma le_foldl_max_init : ∀ (l : List Int) (d : Int), d ≤ l.foldl max d
  | [], d => le_refl d
  | x :: xs, d => le_trans (le_max_left d x) (le_foldl_max_init xs (max d x))

lemma le_foldl_max_mem : ∀ (l : List Int) (d x : Int), x ∈ l → x ≤ l.foldl max d
  | y :: xs, d, x, h => by
    rcases List.mem_cons.mp h with h1 | h2
    · rw [h1, List.foldl_cons]
      exact le_trans (le_max_right d y) (le_foldl_max_init xs (max d y))
    · rw [List.foldl_cons]
      exact le_foldl_max_mem xs (max d y) x h2

lemma foldl_max_mem : ∀ (l : List Int) (d : Int), l.foldl max d = d ∨ l.foldl max d ∈ l
  | [], _ => Or.inl rfl
  | x :: xs, d => by
    rw [List.foldl_cons]
    rcases foldl_max_mem xs (max d x) with h | h
    · rcases max_choice d x with hm | hm
      · exact Or.inl (by rw [h, hm])
      · exact Or.inr (by rw [h, hm]; exact List.mem_cons_self x xs)
    · exact Or.inr (List.mem_cons_of_mem x h)

lemma latestOf_mem (cs : List ChangeRecord) (h : cs ≠ []) :
    latestOf cs ∈ cs.map ChangeRecord.timestamp := by
  cases cs with
  | nil => exact absurd rfl h
  | cons c tl =>
    unfold latestOf
    simp only [List.map_cons]
    rcases foldl_max_mem (tl.map ChangeRecord.timestamp) c.timestamp with h1 | h1
    · rw [h1]
      exact List.mem_cons_self _ _
    · exact List.mem_cons_of_mem _ h1

lemma le_latestOf (cs : List ChangeRecord) (c : ChangeRecord) (h : c ∈ cs) :
    c.timestamp ≤ latestOf cs := by
  cases cs with
  | nil => exact absurd h (List.not_mem_nil c)
  | cons c0 tl =>
    unfold latestOf
    simp only [List.map_cons]
    rcases List.mem_cons.mp h with h1 | h1
    · rw [h1]
      exact le_foldl_max_init _ _
    · exact le_foldl_max_mem _ _ _ (List.mem_map_of_mem ChangeRecord.timestamp h1)

/-- C6: `compute_turnover_rate` returns 0.0 when no event matches the
filter scope; otherwise, with `latestOf` the maximum event timestamp in
the scope, it returns the number of scoped events with timestamp in
`[latest - window, latest]` divided by `window_minutes / 60`. -/
theorem compute_turnover_rate_spec (changes : List ChangeRecord) (sid : Option Int)
    (w : Int) :
    (changes.filter (sidMatches sid) = [] → compute_turnover_rate changes sid w = 0)
    ∧ (0 < w → changes.filter (sidMatches sid) ≠ [] →
        (latestOf (changes.filter (sidMatches sid)) ∈
            (changes.filter (sidMatches sid)).map ChangeRecord.timestamp
        ∧ (∀ c ∈ changes.filter (sidMatches sid),
            c.timestamp ≤ latestOf (changes.filter (sidMatches sid)))
        ∧ compute_turnover_rate changes sid w =
            (((changes.filter (sidMatches sid)).filter (fun c =>
                decide (latestOf (changes.filter (sidMatches sid)) - w * 60 ≤ c.timestamp ∧
                  c.timestamp ≤ latestOf (changes.filter (sidMatches sid))))).length : ℚ)
              / ((w : ℚ) / 60))) := by
  constructor
  · intro hf
    unfold compute_turnover_rate
    by_cases hc : changes.isEmpty
    · rw [if_pos hc]
    · rw [if_neg hc, hf]
      simp
  · intro hw hne
    have hchne : ¬changes.isEmpty := by
      intro hc
      apply hne
      rw [List.isEmpty_iff.mp hc]
      rfl
    refine ⟨latestOf_mem _ hne, le_latestOf _, ?_⟩
    unfold compute_turnover_rate
    rw [if_neg hchne, if_neg (by simpa using hne)]
    have hhours : (0 : ℚ) < (w : ℚ) / 60 := by
      apply div_pos _ (by norm_num)
      exact_mod_cast hw
    rw [if_pos hhours]
    have hfilter : (changes.filter (sidMatches sid)).filter (fun c =>
          decide (latestOf (changes.filter (sidMatches sid)) - w * 60 ≤ c.timestamp)) =
        (changes.filter (sidMatches sid)).filter (fun c =>
          decide (latestOf (changes.filter (sidMatches sid)) - w * 60 ≤ c.timestamp ∧
            c.timestamp ≤ latestOf (changes.filter (sidMatches sid)))) := by
      apply List.filter_congr
      intro c hc
      have hle : c.timestamp ≤ latestOf (changes.filter (sidMatches sid)) :=
        le_latestOf _ c hc
      by_cases hcut : latestOf (changes.filter (sidMatches sid)) - w * 60 ≤ c.timestamp
      · simp [hcut, hle]
      · simp [hcut]
    rw [hfilter]

/-- C6 witness (Scenario C): 4 events at minute offsets 5, 20, 40, 59
with a 60-minute window give a turnover rate of exactly 4.0. -/
theorem compute_turnover_rate_spec_witness :
    compute_turnover_rate scenarioChanges none 60 = 4 := by
  have h := (compute_turnover_rate_spec scenarioChanges none 60).2
    (by decide) (by with_unfolding_all decide)
  rw [h.2.2]
  with_unfolding_all decide

/-- C7: `get_peak_hours` returns at most 10 groups, sorted so that every
group with a strictly higher average occupancy rate precedes every group
with a lower one, and each returned group is one of the hourly-truncated
groups with its averaged rate. -/
theorem get_peak_hours_spec (ms : List Metric) :
    (get_peak_hours ms).length ≤ 10
    ∧ List.Sorted rateGE (get_peak_hours ms)
    ∧ (∀ p ∈ get_peak_hours ms, p ∈ hourly_avg ms) := by
  unfold get_peak_hours
  by_cases hms : ms.isEmpty
  · rw [if_pos hms]
    exact ⟨by simp, List.sorted_nil, by simp⟩
  · rw [if_neg hms]
    refine ⟨List.length_take_le _ _, ?_, ?_⟩
    · exact (List.sorted_insertionSort rateGE (hourly_avg ms)).sublist
        (List.take_sublist _ _)
    · intro p hp
      have hp2 : p ∈ List.insertionSort rateGE (hourly_avg ms) :=
        List.take_subset _ _ hp
      exact (List.perm_insertionSort rateGE (hourly_avg ms)).subset hp2

/-- C7 witness: two snapshots in distinct hours with rates 9/10 and 1/10
give a short, descending peak-hours list containing the 9/10 group. -/
theorem get_peak_hours_spec_witness :
    (get_peak_hours demoMetrics).length ≤ 10
    ∧ List.Sorted rateGE (get_peak_hours demoMetrics)
    ∧ (0, 9 / 10) ∈ hourly_avg demoMetrics := by
  have h := get_peak_hours_spec demoMetrics
  exact ⟨h.1, h.2.1, h.2.2 (0, 9 / 10) (by with_unfolding_all decide)⟩

lemma update_all_foldl (evals : List (Int × Int) → List DetectionEval) (t : Int) :
    ∀ (spaces : List ParkingSpace) (acc : List Event × List ParkingSpace),
      spaces.foldl (updateAllStep evals t) acc =
        (acc.1 ++ spaces.filterMap (eventOf evals t),
         acc.2 ++ spaces.map (stepSpace evals t))
  | [], acc => by simp
  | s :: tl, acc => by
    rw [List.foldl_cons, update_all_foldl evals t tl]
    by_cases hc : s.state ≠ (stepSpace evals t s).state ∧ s.state ≠ SpaceState.UNKNOWN
    · simp [updateAllStep, eventOf, hc, List.filterMap_cons]
    · simp [updateAllStep, eventOf, hc, List.filterMap_cons]

/-- C9: `update_all` returns exactly one event per region whose state
changed away from a non-Unknown prior state, in the region set's
iteration order, alongside the updated regions; and that event condition
coincides with the region having appended to its transition log. -/
theorem update_all_spec (spaces : List ParkingSpace)
    (evals : List (Int × Int) → List DetectionEval) (t : Int) :
    ((update_all spaces evals t).1 = spaces.filterMap (eventOf evals t))
    ∧ ((update_all spaces evals t).2 = spaces.map (stepSpace evals t))
    ∧ (∀ s : ParkingSpace,
        ((stepSpace evals t s).state_history ≠ s.state_history ↔
          (s.state ≠ (stepSpace evals t s).state ∧ s.state ≠ SpaceState.UNKNOWN))) := by
  have hgo := update_all_foldl evals t spaces ([], [])
  refine ⟨?_, ?_, ?_⟩
  · unfold update_all
    rw [hgo]
    simp
  · unfold update_all
    rw [hgo]
    simp
  · intro s
    have hstate : (stepSpace evals t s).state =
        newStateOf (check_occupancy s (evals s.polygon)).1 :=
      update_state_state _ _ _
    have hh : (stepSpace evals t s).state_history =
        if s.state ≠ newStateOf (check_occupancy s (evals s.polygon)).1 ∧
            s.state ≠ SpaceState.UNKNOWN
        then s.state_history ++ [(t, newStateOf (check_occupancy s (evals s.polygon)).1)]
        else s.state_history :=
      update_state_history (check_occupancy s (evals s.polygon)).2
        (check_occupancy s (evals s.polygon)).1 t
    rw [hh, hstate]
    by_cases hc : s.state ≠ newStateOf (check_occupancy s (evals s.polygon)).1 ∧
        s.state ≠ SpaceState.UNKNOWN
    · rw [if_pos hc]
      exact ⟨fun _ => hc, fun _ => append_singleton_ne _ _⟩
    · rw [if_neg hc]
      exact ⟨fun hne => absurd rfl hne, fun h => absurd h hc⟩

/-- C9 witness: with no detections, an Occupied space yields exactly its
Occupied→Empty event and an Unknown space yields none. -/
theorem update_all_spec_witness :
    (update_all [demoOccupiedSpace, demoUnknownSpace] (fun _ => []) 7).1 =
      List.filterMap (eventOf (fun _ => []) 7) [demoOccupiedSpace, demoUnknownSpace]
    ∧ ((stepSpace (fun _ => []) 7 demoOccupiedSpace).state_history ≠
          demoOccupiedSpace.state_history ↔
        (demoOccupiedSpace.state ≠ (stepSpace (fun _ => []) 7 demoOccupiedSpace).state ∧
          demoOccupiedSpace.state ≠ SpaceState.UNKNOWN)) := by
  have h := update_all_spec [demoOccupiedSpace, demoUnknownSpace] (fun _ => []) 7
  exact ⟨h.1, h.2.2 demoOccupiedSpace⟩

end ParkVision
